import Mathlib

/-!
Shallow embedding of the client bridge of `rust-jack` (files
`src/client/base.rs` and `src/client/callbacks.rs`), and proofs about it.

The native JACK engine is out of process; every native call site in the
source receives a status code, a pointer, or a string from the engine.  In
the embedding each such native outcome is an explicit input of the Lean
function that models the Rust function, so that the Rust function's own
control flow (the part that lives in this repository) is what the Lean
definition translates.  Machine pointers are modelled as `Nat` with `0`
playing the role of the null pointer; native `int` status codes are `Int`;
`jack_nframes_t` (an unsigned 32-bit frame count) is `Nat`, since none of
the modelled code performs arithmetic on it.

Rust code that can panic (`unimplemented!`, `unreachable!`, `.unwrap()`)
is modelled with `RustOutcome`, which distinguishes a normal return from a
panic.
-/

/-- Outcome of running a piece of Rust code that may panic: either a normal
return value or a panic (`unimplemented!`, `unreachable!`, `.unwrap()` on a
failed decode, ...). -/
inductive RustOutcome (α : Type) where
  | ok (val : α)
  | panicked
  deriving DecidableEq

/-- The error enumeration `JackErr` from `jack_enums`, restricted to the
variants constructed by the modelled files (`src/client/base.rs` and
`src/client/callbacks.rs`). Payload-carrying variants carry exactly the
payloads the source attaches to them. -/
inductive JackErr where
  | SetBufferSizeError
  | PortRegistrationError (name : String)
  | PortAlreadyConnected (source destination : String)
  | PortConnectionError (source destination : String)
  | PortDisconnectionError
  | PortMonitorError
  | TimeError
  | CallbackDeregistrationError
  | CallbackRegistrationError
  deriving DecidableEq

/-- The POSIX `EEXIST` status code (`libc::EEXIST`), the value `jack_connect`
returns for an already-existing connection. On Linux this is 17. -/
def EEXIST : Int := 17

/-- `JackClient::connect_ports_by_name` (src/client/base.rs:426-449).
`res` is the status returned by the native `jack_connect` call; the source
matches it against `0`, `libc::EEXIST` and a catch-all. The `CString`
conversions in the source only feed the native call and do not affect the
returned value. -/
def connect_ports_by_name (res : Int) (source_port destination_port : String) :
    Except JackErr Unit :=
  if res = 0 then Except.ok ()
  else if res = EEXIST then
    Except.error (JackErr.PortAlreadyConnected source_port destination_port)
  else
    Except.error (JackErr.PortConnectionError source_port destination_port)

/-- Claim C1: for every pair of port names, `connect_ports_by_name` returns
`Ok(())` exactly when the native connect call returns 0; it returns
`PortAlreadyConnected` carrying both port names exactly when the native call
returns `EEXIST`; and for every other non-zero native status it returns
`PortConnectionError` carrying both port names, so the already-connected
case is always distinguishable from every other connection failure. -/
theorem connect_ports_by_name_status_map (res : Int) (src dst : String) :
    (connect_ports_by_name res src dst = Except.ok () ↔ res = 0) ∧
    (connect_ports_by_name res src dst =
        Except.error (JackErr.PortAlreadyConnected src dst) ↔ res = EEXIST) ∧
    (res ≠ 0 → res ≠ EEXIST →
      connect_ports_by_name res src dst =
        Except.error (JackErr.PortConnectionError src dst)) := by
  rcases eq_or_ne res 0 with h0 | h0
  · subst h0
    refine ⟨?_, ?_, ?_⟩ <;> simp [connect_ports_by_name, EEXIST]
  · rcases eq_or_ne res EEXIST with he | he
    · subst he
      refine ⟨?_, ?_, ?_⟩ <;> simp [connect_ports_by_name, EEXIST]
    · refine ⟨?_, ?_, fun _ _ => ?_⟩ <;> simp [connect_ports_by_name, h0, he]

/-- Witness for `connect_ports_by_name_status_map` at a concrete input whose
native status is neither 0 nor `EEXIST`. -/
theorem connect_ports_by_name_status_map_witness :
    connect_ports_by_name (-1) "system:capture_1" "app:in" =
      Except.error (JackErr.PortConnectionError "system:capture_1" "app:in") :=
  (connect_ports_by_name_status_map (-1) "system:capture_1" "app:in").2.2
    (by decide) (by decide)

/-- The `CycleTimes` struct (src/client/base.rs:36-41). `period_usecs` is a
C `float` in the source; it is carried here as its raw 32-bit pattern, since
no modelled code computes with it. -/
structure CycleTimes where
  current_frames : Nat
  current_usecs : Nat
  next_usecs : Nat
  period_usecs : Nat
  deriving DecidableEq

/-- `ProcessScope::cycle_times` (src/client/base.rs:83-107). The body of the
source function is `unimplemented!()` — the status-matching implementation
is present only as commented-out code — so the function panics on every
call, before the native `jack_get_cycle_times` outcome (modelled by the two
arguments) could matter. -/
def cycle_times (_nativeRes : Int) (_nativeTimes : CycleTimes) :
    RustOutcome (Except JackErr CycleTimes) :=
  RustOutcome.panicked

/-- Claim C2 (code evaluated at the failing input): `cycle_times` panics on
every invocation, including when the native call would report failure, so it
never returns `Err(JackErr::TimeError)` and never returns a `CycleTimes`
snapshot, contrary to the claim and to the function's own doc comment. -/
theorem cycle_times_always_panics (res : Int) (t : CycleTimes) :
    cycle_times res t = RustOutcome.panicked ∧
    cycle_times res t ≠ RustOutcome.ok (Except.error JackErr.TimeError) := by
  exact ⟨rfl, by simp [cycle_times]⟩

/-- The `ProcessScope` struct (src/client/base.rs:46-51): the native client
pointer and the frame count for the current cycle, as stored by the
constructor. The Rust accessor `n_frames()` returns the stored field, which
the Lean projection `ProcessScope.n_frames` models directly. -/
structure ProcessScope where
  client_ptr : Nat
  n_frames : Nat
  deriving DecidableEq

/-- `ProcessScope::from_raw` (src/client/base.rs:121-126): stores the given
frame count and client pointer unchanged. -/
def ProcessScope.from_raw (n_frames : Nat) (client_ptr : Nat) : ProcessScope :=
  { client_ptr := client_ptr, n_frames := n_frames }

/-- The `process` trampoline (src/client/callbacks.rs:205-211): reconstructs
the `(handler, WeakClient)` pair from the opaque context pointer, builds a
`ProcessScope` from the engine-supplied frame count and the stored client
pointer, and invokes the handler with that client and scope. The model
returns the `(client pointer, scope)` pair the handler is invoked with. -/
def process_trampoline (n_frames : Nat) (handler_client_ptr : Nat) :
    Nat × ProcessScope :=
  (handler_client_ptr, ProcessScope.from_raw n_frames handler_client_ptr)

/-- Claim C3: for every frame count passed by the engine to the process
trampoline, the `ProcessScope` handed to the handler reports exactly that
frame count through `n_frames` — the bridge neither alters nor recomputes
it. -/
theorem process_scope_frames_exact (n c : Nat) :
    ((process_trampoline n c).2).n_frames = n := rfl

/-- The `Port<PS>` value built by `Port::from_raw(port_spec, client_ptr, pp)`
on the success path of `register_port`. The `port` module is outside the
modelled files; the claim only depends on the port being the typed owned
value built from the registration's specification and pointers. -/
structure Port (PS : Type) where
  spec : PS
  client_ptr : Nat
  port_ptr : Nat

/-- `JackClient::register_port` (src/client/base.rs:278-298). `pp` is the
pointer returned by the native `jack_port_register` call (`0` = null). The
source checks `pp.is_null()`: null yields
`PortRegistrationError(port_name.to_string())`, otherwise
`Ok(Port::from_raw(port_spec, self.as_ptr(), pp))`. The `CString`
conversions and the flag/buffer-size extraction only feed the native call. -/
def register_port {PS : Type} (client_ptr : Nat) (pp : Nat)
    (port_name : String) (port_spec : PS) : Except JackErr (Port PS) :=
  if pp = 0 then Except.error (JackErr.PortRegistrationError port_name)
  else Except.ok { spec := port_spec, client_ptr := client_ptr, port_ptr := pp }

/-- Claim C4: for every port name and port specification, `register_port`
returns `Ok` with the owned typed port exactly when the native registration
call returns a non-null pointer, and otherwise returns
`PortRegistrationError` carrying exactly the attempted short port name. -/
theorem register_port_result_map {PS : Type} (client_ptr pp : Nat)
    (name : String) (spec : PS) :
    (pp ≠ 0 →
      register_port client_ptr pp name spec =
        Except.ok { spec := spec, client_ptr := client_ptr, port_ptr := pp }) ∧
    (pp = 0 →
      register_port client_ptr pp name spec =
        Except.error (JackErr.PortRegistrationError name)) := by
  constructor
  · intro h; simp [register_port, h]
  · intro h; simp [register_port, h]

/-- Witness for `register_port_result_map` on both branches at concrete
inputs. -/
theorem register_port_result_map_witness :
    register_port 5 42 "out" () =
        Except.ok { spec := (), client_ptr := 5, port_ptr := 42 } ∧
    register_port 5 0 "out" () =
        Except.error (JackErr.PortRegistrationError "out") :=
  ⟨(register_port_result_map 5 42 "out" ()).1 (by decide),
   (register_port_result_map 5 0 "out" ()).2 rfl⟩

/-- Decode outcome of `ffi::CStr::to_str()` for a native null-terminated
byte string: `some s` when the bytes are valid UTF-8 text, `none` on a
`Utf8Error`. The decode itself is a standard-library call at the native
boundary, so the embedding takes its outcome as input, like the native
status codes. -/
def DecodedCStr : Type := Option String

/-- Computes the reason string that the `shutdown` trampoline
(src/client/callbacks.rs:192-203) hands to the handler: the decoded text on
success, and the fixed placeholder on decode failure. -/
def shutdown_reason (decoded : Option String) : String :=
  match decoded with
  | some s => s
  | none => "Failed to interpret error."

/-- The arguments the `client_registration` trampoline passes to the
handler's `client_registration` method: the decoded client name and the
registered/unregistered flag. -/
structure ClientRegistrationCall where
  name : String
  is_registered : Bool
  deriving DecidableEq

/-- The `client_registration` trampoline (src/client/callbacks.rs:236-246):
decodes the native name with `CStr::to_str().unwrap()` — panicking when the
bytes are not valid text — then maps the native `register` flag (`0` =
false, anything else = true) and invokes the handler. The model returns the
handler call, or a panic when the decode fails. -/
def client_registration (decoded_name : Option String) (register : Int) :
    RustOutcome ClientRegistrationCall :=
  match decoded_name with
  | some name =>
      RustOutcome.ok
        { name := name, is_registered := if register = 0 then false else true }
  | none => RustOutcome.panicked

/-- Claim C5: when the shutdown trampoline's reason string fails to decode,
the handler is still invoked, with the fixed placeholder text (shutdown
handling never fails); when a valid string decodes, it is passed through
unaltered; and the client-registration trampoline never silently
substitutes text — on decode failure it panics instead of invoking the
handler, and whenever it does invoke the handler the name is exactly the
decoded string. -/
theorem string_decode_policy (d : Option String) (r : Int) :
    (d = none → shutdown_reason d = "Failed to interpret error.") ∧
    (∀ s, d = some s → shutdown_reason d = s) ∧
    (d = none → client_registration d r = RustOutcome.panicked) ∧
    (∀ call, client_registration d r = RustOutcome.ok call → d = some call.name) := by
  refine ⟨fun h => by simp [h, shutdown_reason],
          fun s h => by simp [h, shutdown_reason],
          fun h => by simp [h, client_registration],
          fun call h => ?_⟩
  cases d with
  | none => simp [client_registration] at h
  | some s =>
      simp [client_registration] at h
      simp [← h]

/-- Witness for `string_decode_policy` at a failed decode and at a
successful one. -/
theorem string_decode_policy_witness :
    shutdown_reason none = "Failed to interpret error." ∧
    client_registration none 1 = RustOutcome.panicked ∧
    shutdown_reason (some "server exiting") = "server exiting" :=
  ⟨(string_decode_policy none 1).1 rfl,
   (string_decode_policy none 1).2.2.1 rfl,
   (string_decode_policy (some "server exiting") 1).2.1 "server exiting" rfl⟩

/-- The thirteen callback kinds named by the specification, one per native
registration function in the JACK ABI. -/
inductive CallbackKind where
  | threadInit
  | shutdown
  | process
  | freewheel
  | bufferSize
  | sampleRate
  | clientRegistration
  | portRegistration
  | portRename
  | portConnect
  | graphOrder
  | xrun
  | latency
  deriving DecidableEq

/-- `register_callbacks` (src/client/callbacks.rs:346-367). The model
returns the trace of native registration calls made, each as a
`(callback kind, opaque context pointer)` pair in source order, together
with the function's result. `handler_ptr` is the address of the heap
allocation `Box::into_raw(Box::new((handler, client)))`, which the source
passes as `data_ptr` to every registration and returns as `Ok(handler_ptr)`.
The `jack_set_port_rename_callback` call is commented out in the source
("doesn't compile for testing"), so no `portRename` registration appears in
the trace. -/
def register_callbacks (handler_ptr : Nat) :
    List (CallbackKind × Nat) × Except JackErr Nat :=
  ([(CallbackKind.threadInit, handler_ptr),
    (CallbackKind.shutdown, handler_ptr),
    (CallbackKind.process, handler_ptr),
    (CallbackKind.freewheel, handler_ptr),
    (CallbackKind.bufferSize, handler_ptr),
    (CallbackKind.sampleRate, handler_ptr),
    (CallbackKind.clientRegistration, handler_ptr),
    (CallbackKind.portRegistration, handler_ptr),
    (CallbackKind.portConnect, handler_ptr),
    (CallbackKind.graphOrder, handler_ptr),
    (CallbackKind.xrun, handler_ptr),
    (CallbackKind.latency, handler_ptr)],
   Except.ok handler_ptr)

/-- The callback kinds registered by `register_callbacks`, in call order. -/
def registered_kinds : List CallbackKind :=
  ((register_callbacks 0).1).map Prod.fst

/-- Claim C7 counterexample: `register_callbacks` does not perform exactly
one native registration per callback kind — at the concrete context pointer
1, the port-rename kind is registered zero times, because the source
comments that call out. -/
theorem register_callbacks_counterexample :
    ¬ (∀ k : CallbackKind,
        (((register_callbacks 1).1).map Prod.fst).count k = 1) := by
  intro h
  exact absurd (h CallbackKind.portRename) (by decide)

/-- Claim C7 as amended: `register_callbacks` performs exactly one native
registration for each callback kind other than port-rename (whose
registration is commented out in the source and occurs zero times), every
registration passes the same opaque context pointer — the address of the
single heap allocation holding the `(handler, client)` pair — and that
same address is the pointer returned on success. -/
theorem register_callbacks_registrations (p : Nat) :
    (register_callbacks p).1 = registered_kinds.map (fun k => (k, p)) ∧
    (register_callbacks p).2 = Except.ok p ∧
    (∀ k : CallbackKind, k ≠ CallbackKind.portRename →
      registered_kinds.count k = 1) ∧
    registered_kinds.count CallbackKind.portRename = 0 := by
  refine ⟨rfl, rfl, ?_, by decide⟩
  intro k hk
  cases k <;> first | decide | exact absurd rfl hk

/-- Witness for `register_callbacks_registrations` at a concrete context
pointer, using the per-kind count conjunct at the xrun kind. -/
theorem register_callbacks_registrations_witness :
    registered_kinds.count CallbackKind.xrun = 1 :=
  (register_callbacks_registrations 7).2.2.1 CallbackKind.xrun (by decide)

/-- `clear_callbacks` (src/client/callbacks.rs:318-322). The deregistration
body is commented out in the source (its TODO reads "Implement correctly.
Freezes on my system."), so the function performs no native deregistration
call and returns `Ok(())` unconditionally. The model returns the trace of
native deregistration calls made (always empty) and the result. -/
def clear_callbacks (_client : Nat) : List CallbackKind × Except JackErr Unit :=
  ([], Except.ok ())

/-- Claim C6 (code evaluated at the failing input): `clear_callbacks`
makes no native deregistration call for any connection — its deregistration
trace is empty — and returns `Ok(())` unconditionally, so it does not clear
the callbacks previously registered by `register_callbacks`, contrary to
the claim and to the function's own doc comment. -/
theorem clear_callbacks_clears_nothing (client : Nat) :
    (clear_callbacks client).1 = [] ∧
    (clear_callbacks client).2 = Except.ok () ∧
    ∀ k ∈ registered_kinds, k ∉ (clear_callbacks client).1 := by
  exact ⟨rfl, rfl, fun k _ => by simp [clear_callbacks]⟩

/-- Witness for `cycle_times_always_panics` at a concrete invocation. -/
theorem cycle_times_always_panics_witness :
    cycle_times 1 { current_frames := 0, current_usecs := 0,
                    next_usecs := 0, period_usecs := 0 } =
      RustOutcome.panicked :=
  (cycle_times_always_panics 1
    { current_frames := 0, current_usecs := 0,
      next_usecs := 0, period_usecs := 0 }).1

/-- Witness for `clear_callbacks_clears_nothing` at a concrete connection
and callback kind. -/
theorem clear_callbacks_clears_nothing_witness :
    CallbackKind.process ∉ (clear_callbacks 1).1 :=
  (clear_callbacks_clears_nothing 1).2.2 CallbackKind.process (by decide)

/-- `JackClient::set_buffer_size` (src/client/base.rs:194-200). `res` is the
status returned by the native `jack_set_buffer_size` call. -/
def set_buffer_size (res : Int) : Except JackErr Unit :=
  if res = 0 then Except.ok () else Except.error JackErr.SetBufferSizeError

/-- `JackClient::disconnect_ports_by_name` (src/client/base.rs:479-494).
`res` is the status returned by the native `jack_disconnect` call; the port
name arguments only feed the native call and do not affect the result. -/
def disconnect_ports_by_name (res : Int) : Except JackErr Unit :=
  if res = 0 then Except.ok () else Except.error JackErr.PortDisconnectionError

/-- `JackClient::request_monitor_by_name` (src/client/base.rs:370-384).
`res` is the status returned by the native
`jack_port_request_monitor_by_name` call; the port name and the
`enable_monitor` flag (encoded as 1/0) only feed the native call. -/
def request_monitor_by_name (res : Int) : Except JackErr Unit :=
  if res = 0 then Except.ok () else Except.error JackErr.PortMonitorError

/-- Claim C8: `set_buffer_size`, `disconnect_ports_by_name` and
`request_monitor_by_name` each return `Ok(())` exactly when their native
call returns 0, and on every non-zero status return their own distinct
named error kind — three pairwise-distinct variants, none of them the
generic connection error — so no raw native status code escapes any of
them. -/
theorem distinct_error_kinds (res : Int) :
    (set_buffer_size res = Except.ok () ↔ res = 0) ∧
    (res ≠ 0 → set_buffer_size res = Except.error JackErr.SetBufferSizeError) ∧
    (disconnect_ports_by_name res = Except.ok () ↔ res = 0) ∧
    (res ≠ 0 →
      disconnect_ports_by_name res = Except.error JackErr.PortDisconnectionError) ∧
    (request_monitor_by_name res = Except.ok () ↔ res = 0) ∧
    (res ≠ 0 →
      request_monitor_by_name res = Except.error JackErr.PortMonitorError) ∧
    (JackErr.SetBufferSizeError ≠ JackErr.PortDisconnectionError ∧
     JackErr.SetBufferSizeError ≠ JackErr.PortMonitorError ∧
     JackErr.PortDisconnectionError ≠ JackErr.PortMonitorError) := by
  rcases eq_or_ne res 0 with h0 | h0
  · subst h0
    refine ⟨?_, ?_, ?_, ?_, ?_, ?_, ?_⟩ <;>
      simp [set_buffer_size, disconnect_ports_by_name, request_monitor_by_name]
  · refine ⟨?_, fun _ => ?_, ?_, fun _ => ?_, ?_, fun _ => ?_, ?_⟩ <;>
      simp [set_buffer_size, disconnect_ports_by_name,
            request_monitor_by_name, h0]

/-- Witness for `distinct_error_kinds` at a concrete non-zero status. -/
theorem distinct_error_kinds_witness :
    set_buffer_size 22 = Except.error JackErr.SetBufferSizeError :=
  (distinct_error_kinds 22).2.1 (by decide)

/-- The argument triple `(port name pattern, type name pattern, flags)` that
`JackClient::ports` hands to the native `jack_get_ports` call. -/
structure PortsQuery where
  pnp : String
  tnp : String
  flags : Nat
  deriving DecidableEq

/-- The native query built by `JackClient::ports`
(src/client/base.rs:252-264): each optional pattern is replaced by the empty
string via `unwrap_or("")` before the native call, and the flag bitset is
passed through as its bit value. -/
def ports_native_query (port_name_pattern type_name_pattern : Option String)
    (flags : Nat) : PortsQuery :=
  { pnp := port_name_pattern.getD "",
    tnp := type_name_pattern.getD "",
    flags := flags }

/-- `JackClient::ports` (src/client/base.rs:252-264). `engine` is the
engine's (fixed, for a given server state) response to a `jack_get_ports`
query; `ports` issues exactly one such query, built by `ports_native_query`,
and returns the collected strings. It mutates nothing: its value is a
function of the engine state and the arguments alone. -/
def ports (engine : PortsQuery → List String)
    (port_name_pattern type_name_pattern : Option String) (flags : Nat) :
    List String :=
  engine (ports_native_query port_name_pattern type_name_pattern flags)

/-- Claim C9: on each pattern axis, an absent pattern and an empty pattern
produce the same native query, hence the same port list against any engine
state; and two calls of `ports` with the same arguments against the same
engine state return the same list (the call is a pure query of the engine,
mutating nothing). -/
theorem ports_empty_pattern_axes (engine : PortsQuery → List String)
    (p t : Option String) (flags : Nat) :
    (ports_native_query none t flags = ports_native_query (some "") t flags) ∧
    (ports_native_query p none flags = ports_native_query p (some "") flags) ∧
    (ports engine none t flags = ports engine (some "") t flags) ∧
    (ports engine p none flags = ports engine p (some "") flags) ∧
    (ports engine p t flags = ports engine p t flags) :=
  ⟨rfl, rfl, rfl, rfl, rfl⟩

/-- The `LatencyType` enumeration from `jack_enums`, as produced by the
latency trampoline. -/
inductive LatencyType where
  | Capture
  | Playback
  deriving DecidableEq

/-- The native `jack_latency_callback_mode_t` value `JackCaptureLatency`
(first member of the C enum, value 0). -/
def JackCaptureLatency : Nat := 0

/-- The native `jack_latency_callback_mode_t` value `JackPlaybackLatency`
(second member of the C enum, value 1). -/
def JackPlaybackLatency : Nat := 1

/-- The `latency` trampoline (src/client/callbacks.rs:294-303): matches
the native mode against `JackCaptureLatency` and `JackPlaybackLatency`,
hitting `unreachable!()` — a panic — on any other value; on a recognised
mode it invokes the handler with the decoded `LatencyType`. The model
returns the decoded mode handed to the handler, or the panic. -/
def latency_trampoline (mode : Nat) : RustOutcome LatencyType :=
  if mode = JackCaptureLatency then RustOutcome.ok LatencyType.Capture
  else if mode = JackPlaybackLatency then RustOutcome.ok LatencyType.Playback
  else RustOutcome.panicked

/-- Claim C10: under the precondition that the engine passes only the
capture or playback mode code, the latency trampoline maps capture to
`LatencyType.Capture` and playback to `LatencyType.Playback` and the panic
branch is unreachable; for any other mode value it panics instead of
invoking the handler. -/
theorem latency_mode_decode (mode : Nat) :
    (latency_trampoline JackCaptureLatency = RustOutcome.ok LatencyType.Capture) ∧
    (latency_trampoline JackPlaybackLatency = RustOutcome.ok LatencyType.Playback) ∧
    (mode ≠ JackCaptureLatency → mode ≠ JackPlaybackLatency →
      latency_trampoline mode = RustOutcome.panicked) := by
  refine ⟨rfl, rfl, fun hc hp => ?_⟩
  simp [latency_trampoline, hc, hp]

/-- Witness for `latency_mode_decode` at a mode value outside the C enum. -/
theorem latency_mode_decode_witness :
    latency_trampoline 2 = RustOutcome.panicked :=
  (latency_mode_decode 2).2.2 (by decide) (by decide)
